import Mathlib

/-!
Verification of the hal-elements transaction/PSET construction core.

Shallow embedding of:
  * src/src/confidential.rs           (confidential field codec, GetInfo)
  * src/src/bin/hal-elements/cmd/tx.rs   (transaction builder)
  * src/src/bin/hal-elements/cmd/pset.rs (PSET load/edit/merge/sign pipeline)

Conventions:
  * Rust panics/`expect`s become `Except Err` errors; each constructor of
    `Err` is commented with the panic message it stands for.
  * Machine integers (u32/u64) are `Nat`; none of the verified paths
    perform arithmetic that can overflow, they only copy and compare.
  * External elliptic-curve / proof types (`PedersenCommitment`,
    `Generator`, `PublicKey`, `Tweak`, `RangeProof`, `SurjectionProof`)
    are opaque type parameters; their external (de)serializers are
    collected in the `Prim` bundle.  The spec (section 6) lists these
    and the consensus codecs as external collaborators.
  * The record structs of the library crate (`hal_elements::tx`) are not
    among the staged sources (only `confidential.rs` and `pset.rs` of the
    library are); their fields are reconstructed from the spec's section 3
    and from how `cmd/tx.rs` consumes them.
-/

/-- Byte strings: each entry is one byte (bounds are irrelevant to the
verified properties, which only copy and compare bytes). -/
abbrev Bytes : Type := List Nat

/-- Elements networks, used for address classification.
Modelled from the spec: the library root (`hal_elements::Network`) is not a
staged source; the spec's section 3 only needs that distinct networks exist
and are comparable ("single-network addressing"). -/
inductive Network
  | Liquid
  | LiquidTestnet
  | ElementsRegtest
deriving DecidableEq, Repr

/-- The tri-state tag of a confidential field (src/confidential.rs, `ConfidentialType`). -/
inductive ConfidentialType
  | Null
  | Explicit
  | Confidential
deriving DecidableEq, Repr

/-- Display label for well-known assets (src/confidential.rs, `ConfidentialAssetLabel`). -/
inductive ConfidentialAssetLabel
  | LiquidBitcoin
deriving DecidableEq, Repr

/-- The canonical liquid-bitcoin asset id, as the numeric value of the hex
string in `ConfidentialAssetLabel::from_asset_id` (asset ids themselves are
opaque 32-byte identifiers; we model them as the `Nat` they denote). -/
def lbtc_asset_id : Nat :=
  0x6f0279e9ed041c3d710a9f57d0c02928416460c4b722ae3457a11eec381c526d

/-- src/confidential.rs: `ConfidentialAssetLabel::from_asset_id`. -/
def from_asset_id (id : Nat) : Option ConfidentialAssetLabel :=
  if id = lbtc_asset_id then some ConfidentialAssetLabel.LiquidBitcoin else none

/-- src/confidential.rs: `ConfidentialValueInfo`. -/
structure ConfidentialValueInfo where
  type_ : ConfidentialType
  value : Option Nat
  commitment : Option Bytes
deriving DecidableEq, Repr

/-- src/confidential.rs: `ConfidentialAssetInfo`. -/
structure ConfidentialAssetInfo where
  type_ : ConfidentialType
  asset : Option Nat
  commitment : Option Bytes
  label : Option ConfidentialAssetLabel
deriving DecidableEq, Repr

/-- src/confidential.rs: `ConfidentialNonceInfo`.  The `nonce` field holds the
32 bytes of the `sha256d::Hash` wrapper. -/
structure ConfidentialNonceInfo where
  type_ : ConfidentialType
  nonce : Option Bytes
  commitment : Option Bytes
deriving DecidableEq, Repr

/-- `elements::confidential::Value` over an opaque Pedersen-commitment type. -/
inductive CValue (PedC : Type)
  | Null
  | Explicit (v : Nat)
  | Confidential (c : PedC)
deriving DecidableEq, Repr

/-- `elements::confidential::Asset` over an opaque generator type. -/
inductive CAsset (Gen : Type)
  | Null
  | Explicit (id : Nat)
  | Confidential (g : Gen)
deriving DecidableEq, Repr

/-- `elements::confidential::Nonce` over an opaque public-key type; the
`Explicit` payload is the raw `[u8; 32]`. -/
inductive CNonce (PubK : Type)
  | Null
  | Explicit (n : Bytes)
  | Confidential (p : PubK)
deriving DecidableEq, Repr

/-- Errors of the construction / edit / merge / sign pipeline.  Each
constructor stands for one family of Rust panics (the panic message is in
the comment). -/
inductive Err
  /-- "Field ... is required ..." (absent required field of a record). -/
  | MissingRequiredField
  /-- "Invalid Confidential commitment" / "Invalid asset commitment" / "Invalid Nonce Pubkey". -/
  | InvalidCommitment
  /-- "Field ... is required for asset issuances." (absent issuance sub-field). -/
  | IncompleteIssuance
  /-- "Invalid size of asset_blinding_nonce or blinding nonce out of range". -/
  | InvalidBlindingNonce
  /-- "Invalid size of asset_entropy." -/
  | InvalidEntropy
  /-- "Decoding script assembly is not yet supported." -/
  | UnsupportedFeature
  /-- "No scriptPubKey info provided." -/
  | NoScriptPubkey
  /-- "No scriptSig info provided." -/
  | NoScriptSig
  /-- "Unknown address" (`Network::from_params` failed). -/
  | UnknownAddress
  /-- "Addresses for different networks are used in the output scripts." -/
  | MixedNetworkAddresses
  /-- "Conflicting prevout information in input." -/
  | ConflictingPrevout
  /-- "No previous output provided in input." -/
  | MissingPrevout
  /-- "txid field given in input without vout field". -/
  | MissingVout
  /-- "Value in pegout_data does not correspond to output value." -/
  | PegoutValueMismatch
  /-- "Explicit value is required for pegout data." -/
  | NonExplicitPegoutValue
  /-- "Asset in pegout_data does not correspond to output value." -/
  | PegoutAssetMismatch
  /-- "Outpoint in pegin_data does not correspond to input value." -/
  | PeginOutpointMismatch
  /-- "Asset in pegin_data should be explicit." -/
  | NonExplicitPeginAsset
  /-- "Invalid RangeProof". -/
  | InvalidRangeProof
  /-- "Invalid SurjectionProof". -/
  | InvalidSurjectionProof
  /-- "Pset missing both witness and non-witness utxo". -/
  | MissingUtxo
  /-- A Rust slice/Vec index panic (`xs[i]` with `i` out of range), and the
  explicit "... index out of range" panics. -/
  | IndexOutOfBounds
  /-- "public key ... is already in partial sigs" / "... already in HD keypaths". -/
  | DuplicateKey
  /-- "error merging PSET #idx". -/
  | MergeFailed (idx : Nat)
  /-- "Can't load PSET: invalid hex, base64 or unknown file". -/
  | UnrecognizedPsetSource
  /-- "invalid PSET format" (consensus deserialization failed). -/
  | MalformedPset
  /-- "no input or output index provided". -/
  | NoEditTarget
  /-- "can only edit an input or an output at a time". -/
  | AmbiguousEditTarget
deriving DecidableEq, Repr

section Elements

variable (PedC Gen PubK Tweak RangeP SurjP : Type)

/-- `elements::OutPoint` (a txid and an output index).  The txid is its
32-byte representation. -/
structure OutPoint where
  txid : Bytes
  vout : Nat
deriving DecidableEq, Repr

/-- `elements::AssetIssuance`. -/
structure AssetIssuance where
  asset_blinding_nonce : Tweak
  asset_entropy : Bytes
  amount : CValue PedC
  inflation_keys : CValue PedC
deriving DecidableEq, Repr

/-- `elements::TxInWitness`. -/
structure TxInWitness where
  amount_rangeproof : Option RangeP
  inflation_keys_rangeproof : Option RangeP
  script_witness : List Bytes
  pegin_witness : List Bytes
deriving DecidableEq, Repr

/-- `elements::TxIn`. -/
structure TxIn where
  previous_output : OutPoint
  script_sig : Bytes
  sequence : Nat
  is_pegin : Bool
  asset_issuance : AssetIssuance PedC Tweak
  witness : TxInWitness RangeP
deriving DecidableEq, Repr

/-- `elements::TxOutWitness`. -/
structure TxOutWitness where
  surjection_proof : Option SurjP
  rangeproof : Option RangeP
deriving DecidableEq, Repr

/-- `elements::TxOut`. -/
structure TxOut where
  asset : CAsset Gen
  value : CValue PedC
  nonce : CNonce PubK
  script_pubkey : Bytes
  witness : TxOutWitness RangeP SurjP
deriving DecidableEq, Repr

/-- `elements::Transaction`. -/
structure Transaction where
  version : Nat
  lock_time : Nat
  input : List (TxIn PedC Tweak RangeP)
  output : List (TxOut PedC Gen PubK RangeP SurjP)
deriving DecidableEq, Repr

end Elements

/-- The bundle of external primitives the builder calls (spec section 6:
consensus (de)serialization, elliptic-curve parsing, proof parsing are
consumed as opaque services).  `ser`/`par` pairs are the external type's
byte serializer and fallible parser (`from_slice`). -/
structure Prim (PedC Gen PubK Tweak RangeP SurjP : Type) where
  /-- `PedersenCommitment::serialize` (33 bytes). -/
  pedSer : PedC → Bytes
  /-- `secp256k1_zkp::PedersenCommitment::from_slice`. -/
  pedPar : Bytes → Option PedC
  /-- `Generator::serialize` (33 bytes). -/
  genSer : Gen → Bytes
  /-- `secp256k1_zkp::Generator::from_slice`. -/
  genPar : Bytes → Option Gen
  /-- `PublicKey::serialize` (33 bytes). -/
  pkSer : PubK → Bytes
  /-- `secp256k1_zkp::PublicKey::from_slice`. -/
  pkPar : Bytes → Option PubK
  /-- `secp256k1_zkp::Tweak::from_slice`. -/
  twPar : Bytes → Option Tweak
  /-- `Tweak` default (the zero tweak), used by `AssetIssuance::default()`. -/
  twDefault : Tweak
  /-- `RangeProof::from_slice`. -/
  rpPar : Bytes → Option RangeP
  /-- `SurjectionProof::from_slice`. -/
  sjPar : Bytes → Option SurjP
  /-- consensus `serialize` of a `u64` value. -/
  serU64 : Nat → Bytes
  /-- consensus `serialize` of an `AssetId`. -/
  serAssetId : Nat → Bytes
  /-- consensus `serialize` of a 32-byte hash. -/
  serHash : Bytes → Bytes
  /-- consensus `serialize` of a raw byte vector (varint length prefix). -/
  serBytes : Bytes → Bytes

section Codec

variable {PedC Gen PubK Tweak RangeP SurjP : Type}

/-- src/bin/hal-elements/cmd/tx.rs: `create_confidential_value`. -/
def create_confidential_value (P : Prim PedC Gen PubK Tweak RangeP SurjP)
    (info : ConfidentialValueInfo) : Except Err (CValue PedC) :=
  match info.type_ with
  | ConfidentialType.Null => Except.ok CValue.Null
  | ConfidentialType.Explicit =>
    match info.value with
    | some v => Except.ok (CValue.Explicit v)
    | none => Except.error Err.MissingRequiredField
  | ConfidentialType.Confidential =>
    match info.commitment with
    | some bs =>
      match P.pedPar bs with
      | some c => Except.ok (CValue.Confidential c)
      | none => Except.error Err.InvalidCommitment
    | none => Except.error Err.MissingRequiredField

/-- src/bin/hal-elements/cmd/tx.rs: `create_confidential_asset`. -/
def create_confidential_asset (P : Prim PedC Gen PubK Tweak RangeP SurjP)
    (info : ConfidentialAssetInfo) : Except Err (CAsset Gen) :=
  match info.type_ with
  | ConfidentialType.Null => Except.ok CAsset.Null
  | ConfidentialType.Explicit =>
    match info.asset with
    | some a => Except.ok (CAsset.Explicit a)
    | none => Except.error Err.MissingRequiredField
  | ConfidentialType.Confidential =>
    match info.commitment with
    | some bs =>
      match P.genPar bs with
      | some g => Except.ok (CAsset.Confidential g)
      | none => Except.error Err.InvalidCommitment
    | none => Except.error Err.MissingRequiredField

/-- src/bin/hal-elements/cmd/tx.rs: `create_confidential_nonce`.  The
`to_byte_array` call on the explicit `sha256d::Hash` returns the same 32
bytes the record stores. -/
def create_confidential_nonce (P : Prim PedC Gen PubK Tweak RangeP SurjP)
    (info : ConfidentialNonceInfo) : Except Err (CNonce PubK) :=
  match info.type_ with
  | ConfidentialType.Null => Except.ok CNonce.Null
  | ConfidentialType.Explicit =>
    match info.nonce with
    | some n => Except.ok (CNonce.Explicit n)
    | none => Except.error Err.MissingRequiredField
  | ConfidentialType.Confidential =>
    match info.commitment with
    | some bs =>
      match P.pkPar bs with
      | some p => Except.ok (CNonce.Confidential p)
      | none => Except.error Err.InvalidCommitment
    | none => Except.error Err.MissingRequiredField

/-- src/confidential.rs: `GetInfo<ConfidentialValueInfo> for Value`.  The
`network` argument mirrors the Rust signature and is unused. -/
def value_get_info (P : Prim PedC Gen PubK Tweak RangeP SurjP)
    (v : CValue PedC) (_network : Network) : ConfidentialValueInfo where
  type_ :=
    match v with
    | CValue.Null => ConfidentialType.Null
    | CValue.Explicit _ => ConfidentialType.Explicit
    | CValue.Confidential _ => ConfidentialType.Confidential
  value :=
    match v with
    | CValue.Explicit x => some x
    | _ => none
  commitment :=
    match v with
    | CValue.Confidential p => some (P.pedSer p)
    | _ => none

/-- src/confidential.rs: `GetInfo<ConfidentialAssetInfo> for Asset`. -/
def asset_get_info (P : Prim PedC Gen PubK Tweak RangeP SurjP)
    (a : CAsset Gen) (_network : Network) : ConfidentialAssetInfo where
  type_ :=
    match a with
    | CAsset.Null => ConfidentialType.Null
    | CAsset.Explicit _ => ConfidentialType.Explicit
    | CAsset.Confidential _ => ConfidentialType.Confidential
  asset :=
    match a with
    | CAsset.Explicit x => some x
    | _ => none
  commitment :=
    match a with
    | CAsset.Confidential g => some (P.genSer g)
    | _ => none
  label :=
    match a with
    | CAsset.Explicit x => from_asset_id x
    | _ => none

/-- src/confidential.rs: `GetInfo<ConfidentialNonceInfo> for Nonce`.  The
explicit variant stores `sha256d::Hash::from_byte_array(n)`, i.e. the same
32 bytes. -/
def nonce_get_info (P : Prim PedC Gen PubK Tweak RangeP SurjP)
    (n : CNonce PubK) (_network : Network) : ConfidentialNonceInfo where
  type_ :=
    match n with
    | CNonce.Null => ConfidentialType.Null
    | CNonce.Explicit _ => ConfidentialType.Explicit
    | CNonce.Confidential _ => ConfidentialType.Confidential
  nonce :=
    match n with
    | CNonce.Explicit x => some x
    | _ => none
  commitment :=
    match n with
    | CNonce.Confidential p => some (P.pkSer p)
    | _ => none

end Codec

/-- The trivial instantiation of the external primitives, used to evaluate
the builder on concrete inputs. -/
def UPrim : Prim Unit Unit Unit Unit Unit Unit where
  pedSer _ := []
  pedPar _ := some ()
  genSer _ := []
  genPar _ := some ()
  pkSer _ := []
  pkPar _ := some ()
  twPar _ := some ()
  twDefault := ()
  rpPar _ := some ()
  sjPar _ := some ()
  serU64 _ := []
  serAssetId _ := []
  serHash bs := bs
  serBytes bs := bs

/-!
## Transaction record model (spec section 3) and builder (cmd/tx.rs)

The record structs live in the library crate's `tx.rs`, which is not a
staged source; fields are modelled from the spec's section 3 and from how
`cmd/tx.rs` reads them.  String-typed inputs that the binary hands to
external parsers before use (prevout strings, address strings) are modelled
in already-parsed form, with the parser's failure folded into an `Option`.
-/

/-- Modelled from the spec: `hal_elements::tx::InputScriptInfo` — a script
given as raw hex bytes or as assembly text (section 3: "Optional script-sig"). -/
structure InputScriptInfo where
  hex : Option Bytes
  asm : Option String
deriving DecidableEq, Repr

/-- Modelled from the spec: an Elements address as the builder consumes it —
its script and the network classification the external address library
reports for its params (`Network::from_params`, section 6 lists address
classification as external; `none` stands for unclassifiable params). -/
structure Address where
  net : Option Network
  spk : Bytes
deriving DecidableEq, Repr

/-- Modelled from the spec: `hal_elements::tx::OutputScriptInfo` — the output
destination, "exactly one of: raw script hex, script assembly, or an
address" plus an ignorable `type` hint (section 3). -/
structure OutputScriptInfo where
  type_ : Option String
  hex : Option Bytes
  asm : Option String
  unblinded_address : Option Address
deriving DecidableEq, Repr

/-- Modelled from the spec: a Bitcoin (mainchain) address as consumed by the
pegout inner script (`address.assume_checked().script_pubkey()`). -/
structure BtcAddress where
  spk : Bytes
deriving DecidableEq, Repr

/-- Modelled from the spec: `hal::tx::OutputScriptInfo` (the Bitcoin-side
script record used for the pegout inner destination). -/
structure BtcOutputScriptInfo where
  type_ : Option String
  hex : Option Bytes
  asm : Option String
  address : Option BtcAddress
deriving DecidableEq, Repr

/-- Modelled from the spec: `hal_elements::tx::PegoutDataInfo` (section 3:
genesis block hash, destination script descriptor, extra opaque data pushes,
and the pegout value/asset the output must agree with). -/
structure PegoutDataInfo where
  value : Nat
  asset : ConfidentialAssetInfo
  genesis_hash : Bytes
  script_pub_key : BtcOutputScriptInfo
  extra_data : List Bytes
deriving DecidableEq, Repr

/-- Modelled from the spec: `hal_elements::tx::PeginDataInfo` (section 3:
outpoint, value, explicit asset, genesis hash, claim script, mainchain tx
bytes, merkle proof bytes).  The outpoint string is modelled parsed. -/
structure PeginDataInfo where
  outpoint : OutPoint
  value : Nat
  asset : ConfidentialAssetInfo
  genesis_hash : Bytes
  claim_script : Bytes
  mainchain_tx_hex : Bytes
  merkle_proof : Bytes
deriving DecidableEq, Repr

/-- Modelled from the spec: `hal_elements::tx::AssetIssuanceInfo` (section 3:
"blinding nonce, 32-byte entropy, confidential amount, confidential
inflation-keys — all four required together"). -/
structure AssetIssuanceInfo where
  asset_blinding_nonce : Option Bytes
  asset_entropy : Option Bytes
  amount : Option ConfidentialValueInfo
  inflation_keys : Option ConfidentialValueInfo
deriving DecidableEq, Repr

/-- Modelled from the spec: `hal_elements::tx::InputWitnessInfo` (section 3:
range-proofs, script witness stack, pegin witness stack). -/
structure InputWitnessInfo where
  amount_rangeproof : Option Bytes
  inflation_keys_rangeproof : Option Bytes
  script_witness : Option (List Bytes)
  pegin_witness : Option (List Bytes)
deriving DecidableEq, Repr

/-- Modelled from the spec: `hal_elements::tx::InputInfo` (section 3).  The
`prevout` string is modelled in parsed form (`outpoint_from_input_info`
parses it with an external `FromStr` before comparing). -/
structure InputInfo where
  prevout : Option OutPoint
  txid : Option Bytes
  vout : Option Nat
  script_sig : Option InputScriptInfo
  sequence : Option Nat
  has_issuance : Option Bool
  is_pegin : Option Bool
  asset_issuance : Option AssetIssuanceInfo
  pegin_data : Option PeginDataInfo
  witness : Option InputWitnessInfo
deriving DecidableEq, Repr

/-- Modelled from the spec: `hal_elements::tx::OutputWitnessInfo`. -/
structure OutputWitnessInfo where
  surjection_proof : Option Bytes
  rangeproof : Option Bytes
deriving DecidableEq, Repr

/-- Modelled from the spec: `hal_elements::tx::OutputInfo` (section 3:
confidential value and asset required, optional nonce, destination script
or pegout data, optional witness). -/
structure OutputInfo where
  value : Option ConfidentialValueInfo
  asset : Option ConfidentialAssetInfo
  nonce : Option ConfidentialNonceInfo
  script_pub_key : Option OutputScriptInfo
  pegout_data : Option PegoutDataInfo
  witness : Option OutputWitnessInfo
deriving DecidableEq, Repr

/-- Modelled from the spec: `hal_elements::tx::TransactionInfo` (section 3:
version, locktime, input and output sequences, plus ignorable txid / hash /
size / weight / vsize echoes). -/
structure TransactionInfo where
  txid : Option Bytes
  hash : Option Bytes
  size : Option Nat
  weight : Option Nat
  vsize : Option Nat
  version : Option Nat
  locktime : Option Nat
  inputs : Option (List InputInfo)
  outputs : Option (List OutputInfo)
deriving DecidableEq, Repr

section Builder

variable {PedC Gen PubK Tweak RangeP SurjP : Type}

/-- cmd/tx.rs: `outpoint_from_input_info` — reconcile the two prevout
expressions; both present must agree, neither present is an error. -/
def outpoint_from_input_info (input : InputInfo) : Except Err OutPoint := do
  let op1 := input.prevout
  let op2 ← match input.txid with
    | some txid =>
      match input.vout with
      | some vout => Except.ok (some (OutPoint.mk txid vout))
      | none => Except.error Err.MissingVout
    | none => Except.ok none
  match op1, op2 with
  | some o1, some o2 =>
    if o1 ≠ o2 then Except.error Err.ConflictingPrevout else Except.ok o1
  | some o, none => Except.ok o
  | none, some o => Except.ok o
  | none, none => Except.error Err.MissingPrevout

/-- cmd/tx.rs: `bytes_32` — checks the slice is exactly 32 bytes. -/
def bytes_32 (bytes : Bytes) : Option Bytes :=
  if bytes.length ≠ 32 then none else some bytes

/-- cmd/tx.rs: `create_asset_issuance` — all four sub-fields of a supplied
issuance record are required, in source order: blinding nonce, entropy,
amount, inflation keys. -/
def create_asset_issuance (P : Prim PedC Gen PubK Tweak RangeP SurjP)
    (info : AssetIssuanceInfo) : Except Err (AssetIssuance PedC Tweak) := do
  let abn ← match info.asset_blinding_nonce with
    | some bs =>
      match P.twPar bs with
      | some t => Except.ok t
      | none => Except.error Err.InvalidBlindingNonce
    | none => Except.error Err.IncompleteIssuance
  let ent ← match info.asset_entropy with
    | some bs =>
      match bytes_32 bs with
      | some a => Except.ok a
      | none => Except.error Err.InvalidEntropy
    | none => Except.error Err.IncompleteIssuance
  let amt ← match info.amount with
    | some vi => create_confidential_value P vi
    | none => Except.error Err.IncompleteIssuance
  let ik ← match info.inflation_keys with
    | some vi => create_confidential_value P vi
    | none => Except.error Err.IncompleteIssuance
  Except.ok (AssetIssuance.mk abn ent amt ik)

/-- `AssetIssuance::default()`: zero tweak, zero entropy, null amounts. -/
def default_issuance (P : Prim PedC Gen PubK Tweak RangeP SurjP) :
    AssetIssuance PedC Tweak :=
  AssetIssuance.mk P.twDefault (List.replicate 32 0) CValue.Null CValue.Null

/-- cmd/tx.rs: `create_script_sig` — raw hex wins (assembly then ignored
with a warning), assembly alone is unsupported, neither is an error. -/
def create_script_sig (ss : InputScriptInfo) : Except Err Bytes :=
  match ss.hex with
  | some hex => Except.ok hex
  | none =>
    match ss.asm with
    | some _ => Except.error Err.UnsupportedFeature
    | none => Except.error Err.NoScriptSig

/-- cmd/tx.rs: `create_pegin_witness` — checks the pegin outpoint equals the
input's prevout, requires an explicit pegin asset, then serializes the six
stack elements in fixed order (value, asset, genesis hash, claim script,
mainchain tx, merkle proof). -/
def create_pegin_witness (P : Prim PedC Gen PubK Tweak RangeP SurjP)
    (pd : PeginDataInfo) (prevout : OutPoint) : Except Err (List Bytes) := do
  if prevout ≠ pd.outpoint then Except.error Err.PeginOutpointMismatch
  else do
    let ca ← create_confidential_asset P pd.asset
    let asset ← match ca with
      | CAsset.Explicit a => Except.ok a
      | _ => Except.error Err.NonExplicitPeginAsset
    Except.ok [P.serU64 pd.value, P.serAssetId asset, P.serHash pd.genesis_hash,
      P.serBytes pd.claim_script, P.serBytes pd.mainchain_tx_hex,
      P.serBytes pd.merkle_proof]

/-- Parse an optional external blob, mapping a parse failure to `e`. -/
def opt_parse {α : Type} (par : Bytes → Option α) (b : Option Bytes) (e : Err) :
    Except Err (Option α) :=
  match b with
  | none => Except.ok none
  | some bs =>
    match par bs with
    | some x => Except.ok (some x)
    | none => Except.error e

/-- cmd/tx.rs: `create_input_witness` — an explicit pegin-witness sub-field
wins over separately supplied pegin data (warning); otherwise pegin data
synthesizes the stack; otherwise the stack is empty. -/
def create_input_witness (P : Prim PedC Gen PubK Tweak RangeP SurjP)
    (info : Option InputWitnessInfo) (pd : Option PeginDataInfo)
    (prevout : OutPoint) : Except Err (TxInWitness RangeP) := do
  let pegin_witness ← match info with
    | some wi =>
      match wi.pegin_witness with
      | some pw => Except.ok pw
      | none =>
        match pd with
        | some p => create_pegin_witness P p prevout
        | none => Except.ok []
    | none =>
      match pd with
      | some p => create_pegin_witness P p prevout
      | none => Except.ok []
  match info with
  | some wi => do
    let ar ← opt_parse P.rpPar wi.amount_rangeproof Err.InvalidRangeProof
    let ikr ← opt_parse P.rpPar wi.inflation_keys_rangeproof Err.InvalidRangeProof
    Except.ok (TxInWitness.mk ar ikr (wi.script_witness.getD []) pegin_witness)
  | none => Except.ok (TxInWitness.mk none none [] pegin_witness)

/-- cmd/tx.rs: `create_input`.  The issuance flag and pegin flag are the
explicit booleans if given, else inferred from data presence; the sequence
default is `u32::default()`, i.e. `0` (`input.sequence.unwrap_or_default()`
on an `Option<u32>`). -/
def create_input (P : Prim PedC Gen PubK Tweak RangeP SurjP)
    (input : InputInfo) : Except Err (TxIn PedC Tweak RangeP) := do
  let has_issuance := input.has_issuance.getD input.asset_issuance.isSome
  let is_pegin := input.is_pegin.getD input.pegin_data.isSome
  let prevout ← outpoint_from_input_info input
  let script_sig ← match input.script_sig with
    | some ss => create_script_sig ss
    | none => Except.ok []
  let sequence := input.sequence.getD 0
  let asset_issuance ← if has_issuance then
      match input.asset_issuance with
      | some ai => create_asset_issuance P ai
      | none => Except.ok (default_issuance P)
    else
      Except.ok (default_issuance P)
  let witness ← create_input_witness P input.witness input.pegin_data prevout
  Except.ok (TxIn.mk prevout script_sig sequence is_pegin asset_issuance witness)

/-- cmd/tx.rs: `create_pegout_script_pubkey` — the Bitcoin-side inner
destination: raw hex wins, assembly is unsupported, else the address's
script, else an error. -/
def create_pegout_script_pubkey (spk : BtcOutputScriptInfo) : Except Err Bytes :=
  match spk.hex with
  | some hex => Except.ok hex
  | none =>
    match spk.asm with
    | some _ => Except.error Err.UnsupportedFeature
    | none =>
      match spk.address with
      | some address => Except.ok address.spk
      | none => Except.error Err.NoScriptPubkey

/-- cmd/tx.rs: `create_script_pubkey` — same resolution order, plus the
network-consistency update for addresses: `used_network.replace(net)
.unwrap_or(net) != net` errors, else the state becomes `some net`. -/
def create_script_pubkey (spk : OutputScriptInfo) (used_network : Option Network) :
    Except Err (Bytes × Option Network) :=
  match spk.hex with
  | some hex => Except.ok (hex, used_network)
  | none =>
    match spk.asm with
    | some _ => Except.error Err.UnsupportedFeature
    | none =>
      match spk.unblinded_address with
      | some address =>
        match address.net with
        | some net =>
          if (used_network.getD net) ≠ net then Except.error Err.MixedNetworkAddresses
          else Except.ok (address.spk, some net)
        | none => Except.error Err.UnknownAddress
      | none => Except.error Err.NoScriptPubkey

/-- `elements::script::Builder::push_slice`: minimal push encoding (direct
length byte below 76, else OP_PUSHDATA1/2/4 with little-endian length). -/
def push_slice (data : Bytes) : Bytes :=
  (if data.length < 76 then [data.length]
   else if data.length < 256 then [0x4c, data.length]
   else if data.length < 65536 then [0x4d, data.length % 256, data.length / 256]
   else [0x4e, data.length % 256, data.length / 256 % 256,
     data.length / 65536 % 256, data.length / 16777216 % 256]) ++ data

/-- cmd/tx.rs: `create_script_pubkey_from_pegout_data` — OP_RETURN (0x6a),
push of the genesis hash, push of the resolved inner script, one push per
extra-data blob, in that order. -/
def create_script_pubkey_from_pegout_data (pd : PegoutDataInfo) : Except Err Bytes := do
  let inner ← create_pegout_script_pubkey pd.script_pub_key
  Except.ok ([0x6a] ++ push_slice pd.genesis_hash ++ push_slice inner ++
    (pd.extra_data.map push_slice).flatten)

/-- cmd/tx.rs: `create_output_witness`. -/
def create_output_witness (P : Prim PedC Gen PubK Tweak RangeP SurjP)
    (w : OutputWitnessInfo) : Except Err (TxOutWitness RangeP SurjP) := do
  let sj ← opt_parse P.sjPar w.surjection_proof Err.InvalidSurjectionProof
  let rp ← opt_parse P.rpPar w.rangeproof Err.InvalidRangeProof
  Except.ok (TxOutWitness.mk sj rp)

/-- cmd/tx.rs: `create_output`.  Note that `used_network` is initialized to
`None` afresh for every output (the binary declares it inside
`create_output`), and that a supplied script-info wins over pegout data,
which is then only warned about.  An output with neither yields the default
(empty) script. -/
def create_output [DecidableEq Gen] (P : Prim PedC Gen PubK Tweak RangeP SurjP)
    (output : OutputInfo) : Except Err (TxOut PedC Gen PubK RangeP SurjP) := do
  let used_network : Option Network := none
  let value ← match output.value with
    | some vi => create_confidential_value P vi
    | none => Except.error Err.MissingRequiredField
  let asset ← match output.asset with
    | some ai => create_confidential_asset P ai
    | none => Except.error Err.MissingRequiredField
  let nonce ← match output.nonce with
    | some ni => create_confidential_nonce P ni
    | none => Except.ok CNonce.Null
  let script_pubkey ← match output.script_pub_key with
    | some spk => do
      let r ← create_script_pubkey spk used_network
      Except.ok r.1
    | none =>
      match output.pegout_data with
      | some pd => do
        (match value with
          | CValue.Explicit v =>
            if v ≠ pd.value then Except.error Err.PegoutValueMismatch
            else Except.ok ()
          | _ => Except.error Err.NonExplicitPegoutValue)
        let pd_asset ← create_confidential_asset P pd.asset
        if asset ≠ pd_asset then Except.error Err.PegoutAssetMismatch
        else create_script_pubkey_from_pegout_data pd
      | none => Except.ok []
  let witness ← match output.witness with
    | some w => create_output_witness P w
    | none => Except.ok (TxOutWitness.mk none none)
  Except.ok (TxOut.mk asset value nonce script_pubkey witness)

/-- cmd/tx.rs: `create_transaction` — version, locktime, inputs and outputs
are required; the metadata echoes are warned about and ignored. -/
def create_transaction [DecidableEq Gen] (P : Prim PedC Gen PubK Tweak RangeP SurjP)
    (info : TransactionInfo) : Except Err (Transaction PedC Gen PubK Tweak RangeP SurjP) := do
  let version ← match info.version with
    | some v => Except.ok v
    | none => Except.error Err.MissingRequiredField
  let lock_time ← match info.locktime with
    | some l => Except.ok l
    | none => Except.error Err.MissingRequiredField
  let input ← match info.inputs with
    | some is => is.mapM (create_input P)
    | none => Except.error Err.MissingRequiredField
  let output ← match info.outputs with
    | some os => os.mapM (create_output P)
    | none => Except.error Err.MissingRequiredField
  Except.ok (Transaction.mk version lock_time input output)

end Builder

/-!
## PSET model and pipeline (cmd/pset.rs)

`elements::pset` types are modelled with the fields the pipeline reads.
Maps (`partial_sigs`, `bip32_derivation`) are association lists; `insert`
mirrors `BTreeMap::insert` (replace, returning whether the key existed).
Public keys are modelled by their serialized bytes.
-/

section Pset

variable (PedC Gen PubK Tweak RangeP SurjP : Type)

/-- An HD keypath map entry: master fingerprint and derivation path. -/
structure HDPath where
  fingerprint : Bytes
  path : List Nat
deriving DecidableEq, Repr

/-- `elements::pset::Input`, restricted to the fields the edit and signing
pipelines read or write. -/
structure PsetInput where
  non_witness_utxo : Option (Transaction PedC Gen PubK Tweak RangeP SurjP)
  witness_utxo : Option (TxOut PedC Gen PubK RangeP SurjP)
  partial_sigs : List (Bytes × Bytes)
  sighash_type : Option Nat
  redeem_script : Option Bytes
  witness_script : Option Bytes
  bip32_derivation : List (Bytes × HDPath)
  final_script_sig : Option Bytes
  final_script_witness : Option (List Bytes)
  previous_output_index : Nat
deriving DecidableEq, Repr

/-- `elements::pset::Output`, restricted to the fields the editor writes. -/
structure PsetOutput where
  redeem_script : Option Bytes
  witness_script : Option Bytes
  bip32_derivation : List (Bytes × HDPath)
deriving DecidableEq, Repr

/-- `elements::pset::PartiallySignedTransaction`, restricted to its input
and output sequences. -/
structure Pset where
  inputs : List (PsetInput PedC Gen PubK Tweak RangeP SurjP)
  outputs : List PsetOutput
deriving DecidableEq, Repr

end Pset

section PsetOps

variable {PedC Gen PubK Tweak RangeP SurjP : Type}

/-- `BTreeMap` lookup on the association-list model. -/
def map_find {ν : Type} (al : List (Bytes × ν)) (k : Bytes) : Option ν :=
  (al.find? (fun p => p.1 = k)).map Prod.snd

/-- One step of the "-add" loop: `map.insert(k, v).is_some()` panics with
`DuplicateKey`; on a fresh key the entry is added. -/
def map_insert_checked {ν : Type} (al : List (Bytes × ν)) (k : Bytes) (v : ν) :
    Except Err (List (Bytes × ν)) :=
  match map_find al k with
  | some _ => Except.error Err.DuplicateKey
  | none => Except.ok (al ++ [(k, v)])

/-- The "-add" loop over all supplied pairs, in order. -/
def add_pairs {ν : Type} (pairs : List (Bytes × ν)) (al : List (Bytes × ν)) :
    Except Err (List (Bytes × ν)) :=
  match pairs with
  | [] => Except.ok al
  | (k, v) :: rest => do
    let al2 ← map_insert_checked al k v
    add_pairs rest al2

/-- The editable fields of one `pset edit` invocation, in already-decoded
form (hex decoding and consensus deserialization of the argument strings
are external; a present field is a flag that was given). -/
structure EditArgs (PedC Gen PubK Tweak RangeP SurjP : Type) where
  non_witness_utxo : Option (Transaction PedC Gen PubK Tweak RangeP SurjP)
  witness_utxo : Option (TxOut PedC Gen PubK RangeP SurjP)
  partial_sigs : Option (List (Bytes × Bytes))
  partial_sigs_add : Option (List (Bytes × Bytes))
  sighash_type : Option Nat
  redeem_script : Option Bytes
  witness_script : Option Bytes
  hd_keypaths : Option (List (Bytes × HDPath))
  hd_keypaths_add : Option (List (Bytes × HDPath))
  final_script_sig : Option Bytes
  final_script_witness : Option (List Bytes)
deriving DecidableEq, Repr

/-- An `EditArgs` with no field given. -/
def EditArgs.none6 : EditArgs PedC Gen PubK Tweak RangeP SurjP :=
  EditArgs.mk none none none none none none none none none none none

/-- cmd/pset.rs: `edit_input` — fields are applied in source order; the two
"-add" fields fail with `DuplicateKey` on an existing key (the process
aborts, so the partially updated input is discarded). -/
def edit_input (args : EditArgs PedC Gen PubK Tweak RangeP SurjP)
    (pset : Pset PedC Gen PubK Tweak RangeP SurjP) (idx : Nat) :
    Except Err (Pset PedC Gen PubK Tweak RangeP SurjP) :=
  match pset.inputs.get? idx with
  | none => Except.error Err.IndexOutOfBounds
  | some input => do
    let input := match args.non_witness_utxo with
      | some u => { input with non_witness_utxo := some u }
      | none => input
    let input := match args.witness_utxo with
      | some u => { input with witness_utxo := some u }
      | none => input
    let input := match args.partial_sigs with
      | some m => { input with partial_sigs := m }
      | none => input
    let input ← match args.partial_sigs_add with
      | some pairs => do
        let m ← add_pairs pairs input.partial_sigs
        Except.ok { input with partial_sigs := m }
      | none => Except.ok input
    let input := match args.sighash_type with
      | some s => { input with sighash_type := some s }
      | none => input
    let input := match args.redeem_script with
      | some r => { input with redeem_script := some r }
      | none => input
    let input := match args.witness_script with
      | some w => { input with witness_script := some w }
      | none => input
    let input := match args.hd_keypaths with
      | some m => { input with bip32_derivation := m }
      | none => input
    let input ← match args.hd_keypaths_add with
      | some triplets => do
        let m ← add_pairs triplets input.bip32_derivation
        Except.ok { input with bip32_derivation := m }
      | none => Except.ok input
    let input := match args.final_script_sig with
      | some s => { input with final_script_sig := some s }
      | none => input
    let input := match args.final_script_witness with
      | some w => { input with final_script_witness := some w }
      | none => input
    Except.ok { pset with inputs := pset.inputs.set idx input }

/-- cmd/pset.rs: `edit_output` — the output-side subset of the fields. -/
def edit_output (args : EditArgs PedC Gen PubK Tweak RangeP SurjP)
    (pset : Pset PedC Gen PubK Tweak RangeP SurjP) (idx : Nat) :
    Except Err (Pset PedC Gen PubK Tweak RangeP SurjP) :=
  match pset.outputs.get? idx with
  | none => Except.error Err.IndexOutOfBounds
  | some output => do
    let output := match args.redeem_script with
      | some r => { output with redeem_script := some r }
      | none => output
    let output := match args.witness_script with
      | some w => { output with witness_script := some w }
      | none => output
    let output := match args.hd_keypaths with
      | some m => { output with bip32_derivation := m }
      | none => output
    let output ← match args.hd_keypaths_add with
      | some triplets => do
        let m ← add_pairs triplets output.bip32_derivation
        Except.ok { output with bip32_derivation := m }
      | none => Except.ok output
    Except.ok { pset with outputs := pset.outputs.set idx output }

/-- cmd/pset.rs: `get_spk_amt` — the spending script/amount of input
`index`: the witness UTXO wins when present; else output number
`previous_output_index` of the non-witness UTXO, where the Rust `Vec`
index panics when out of range; neither UTXO is `MissingUtxo`. -/
def get_spk_amt (pset : Pset PedC Gen PubK Tweak RangeP SurjP) (index : Nat) :
    Except Err (Bytes × CValue PedC) :=
  match pset.inputs.get? index with
  | none => Except.error Err.IndexOutOfBounds
  | some inp =>
    match inp.witness_utxo with
    | some w => Except.ok (w.script_pubkey, w.value)
    | none =>
      match inp.non_witness_utxo with
      | some nw =>
        match nw.output.get? inp.previous_output_index with
        | some o => Except.ok (o.script_pubkey, o.value)
        | none => Except.error Err.IndexOutOfBounds
      | none => Except.error Err.MissingUtxo

end PsetOps

/-!
## Merge orchestration (cmd/pset.rs, `exec_merge`)

The structural merge primitive (`Pset::merge`) is external (spec section
4.5: "the orchestrator performs no own compatibility checks"); it is a
parameter `m`, with `none` for a failed merge.  The orchestrator is generic
in the PSET representation.
-/

/-- The loop body of `exec_merge`: fold the remaining PSETs into the
accumulator; `idx` is the running `enumerate` counter, which starts at `0`
for the element right after the base (the base was consumed by
`parts.next()` before `enumerate`). -/
def merge_fold {α : Type} (m : α → α → Option α) (acc : α) (idx : Nat) :
    List α → Except Err α
  | [] => Except.ok acc
  | p :: ps =>
    match m acc p with
    | some acc2 => merge_fold m acc2 (idx + 1) ps
    | none => Except.error (Err.MergeFailed idx)

/-- cmd/pset.rs: `exec_merge`, reduced to the fold (loading and the final
write are outside): the first element is the base (`parts.next().unwrap()`
— the argument list is non-empty by clap), the rest are merged in order. -/
def exec_merge_core {α : Type} (m : α → α → Option α) (psets : List α) :
    Except Err α :=
  match psets with
  | [] => Except.error Err.IndexOutOfBounds
  | base :: rest => merge_fold m base 0 rest

/-- Merge the first `k` elements of `ps` into `acc` (the accumulator just
before element `k` of the loop), `none` if fewer than `k` elements or some
earlier merge failed. -/
def merge_upto {α : Type} (m : α → α → Option α) (acc : α) :
    List α → Nat → Option α
  | _, 0 => some acc
  | [], _ + 1 => none
  | p :: ps, k + 1 =>
    match m acc p with
    | some acc2 => merge_upto m acc2 ps k
    | none => none

/-!
## PSET source tracking and the edit round-trip (cmd/pset.rs)

Hex and base64 codecs and the filesystem are external; a `World` carries
them as total functions (`none` = that interpretation failed).  The final
output of an operation is an `OutAction` — what the process prints or
writes — so the encoding choice is observable.
-/

/-- cmd/pset.rs: `PsetSource`. -/
inductive PsetSource
  | Base64
  | Hex
  | File
deriving DecidableEq, Repr

/-- The external decoders/filesystem `file_or_raw` consults (spec section
6: hex/base64 codecs and file IO are external).  `readFile` covers
`File::open` + `read_to_end`. -/
structure World where
  hexDec : String → Option Bytes
  b64Dec : String → Option Bytes
  readFile : String → Option Bytes

/-- cmd/pset.rs: `file_or_raw` — fixed resolution order: hex decode, else
base64 decode, else read as a file path; failing all three is an error. -/
def file_or_raw (w : World) (flag : String) : Except Err (Bytes × PsetSource) :=
  match w.hexDec flag with
  | some raw => Except.ok (raw, PsetSource.Hex)
  | none =>
    match w.b64Dec flag with
    | some raw => Except.ok (raw, PsetSource.Base64)
    | none =>
      match w.readFile flag with
      | some buf => Except.ok (buf, PsetSource.File)
      | none => Except.error Err.UnrecognizedPsetSource

/-- What an operation emits: a file write, raw bytes to stdout, or text
(hex / base64 re-encoding of the given bytes is external and injective, so
the action keeps the bytes). -/
inductive OutAction
  | writeFile (path : String) (bytes : Bytes)
  | rawStdout (bytes : Bytes)
  | printHex (bytes : Bytes)
  | printBase64 (bytes : Bytes)
deriving DecidableEq, Repr

/-- cmd/pset.rs: the save stage of `exec_edit` — an explicit output path
wins, then raw stdout, else the loaded source dictates the encoding (File
overwrites the original argument path). -/
def save_edited (output : Option String) (raw_stdout : Bool)
    (source : PsetSource) (pset_arg : String) (bytes : Bytes) : OutAction :=
  match output with
  | some path => OutAction.writeFile path bytes
  | none =>
    if raw_stdout then OutAction.rawStdout bytes
    else
      match source with
      | PsetSource.Hex => OutAction.printHex bytes
      | PsetSource.Base64 => OutAction.printBase64 bytes
      | PsetSource.File => OutAction.writeFile pset_arg bytes

section ExecEdit

variable {PedC Gen PubK Tweak RangeP SurjP : Type}

/-- cmd/pset.rs: `exec_edit` — load (tracking the source), deserialize,
dispatch on which index was given (exactly one must be), edit, serialize,
save.  `deser`/`ser` are the external consensus codec for PSETs. -/
def exec_edit_core (w : World)
    (deser : Bytes → Option (Pset PedC Gen PubK Tweak RangeP SurjP))
    (ser : Pset PedC Gen PubK Tweak RangeP SurjP → Bytes)
    (pset_arg : String) (input_idx output_idx : Option Nat)
    (args : EditArgs PedC Gen PubK Tweak RangeP SurjP)
    (output : Option String) (raw_stdout : Bool) : Except Err OutAction := do
  let lr ← file_or_raw w pset_arg
  let pset ← match deser lr.1 with
    | some p => Except.ok p
    | none => Except.error Err.MalformedPset
  let pset ← match input_idx, output_idx with
    | none, none => Except.error Err.NoEditTarget
    | some _, some _ => Except.error Err.AmbiguousEditTarget
    | some idx, none => edit_input args pset idx
    | none, some idx => edit_output args pset idx
  let edited_raw := ser pset
  Except.ok (save_edited output raw_stdout lr.2 pset_arg edited_raw)

end ExecEdit

/-!
## Concrete fixtures

Closed inputs used by the counterexample and witness theorems, evaluated
with the trivial `UPrim` instantiation of the external primitives.
-/

/-- 32 zero bytes. -/
def zero32 : Bytes := List.replicate 32 0

/-- An explicit confidential-value record. -/
def expl_value (v : Nat) : ConfidentialValueInfo :=
  ConfidentialValueInfo.mk ConfidentialType.Explicit (some v) none

/-- An explicit confidential-asset record. -/
def expl_asset (a : Nat) : ConfidentialAssetInfo :=
  ConfidentialAssetInfo.mk ConfidentialType.Explicit (some a) none none

/-- An output record paying value 1 of asset 5 to an address of the given
network with the given script. -/
def addr_output (net : Network) (spk : Bytes) : OutputInfo where
  value := some (expl_value 1)
  asset := some (expl_asset 5)
  nonce := none
  script_pub_key := some (OutputScriptInfo.mk none none none
    (some (Address.mk (some net) spk)))
  pegout_data := none
  witness := none

/-- A transaction record with no inputs and two address outputs on two
different networks. -/
def c1_info : TransactionInfo where
  txid := none
  hash := none
  size := none
  weight := none
  vsize := none
  version := some 2
  locktime := some 0
  inputs := some []
  outputs := some [addr_output Network.Liquid [0x51],
    addr_output Network.ElementsRegtest [0x52]]

/-- A minimal input record: prevout only, everything else absent. -/
def base_input : InputInfo where
  prevout := some (OutPoint.mk zero32 0)
  txid := none
  vout := none
  script_sig := none
  sequence := none
  has_issuance := none
  is_pegin := none
  asset_issuance := none
  pegin_data := none
  witness := none

/-- An input with the issuance flag set explicitly to true and no issuance
data at all. -/
def c4_flag_no_data_input : InputInfo :=
  { base_input with has_issuance := some true }

/-- An input carrying an issuance record all four of whose sub-fields are
absent (flag inferred true from the record's presence). -/
def c4_empty_issuance_input : InputInfo :=
  { base_input with asset_issuance := some (AssetIssuanceInfo.mk none none none none) }

/-- Pegout data: value 9 of asset 7, zero genesis hash, inner destination
given as raw script hex, no extra blobs. -/
def c5_pd : PegoutDataInfo where
  value := 9
  asset := expl_asset 7
  genesis_hash := zero32
  script_pub_key := BtcOutputScriptInfo.mk none (some [0x51]) none none
  extra_data := []

/-- An output that carries pegout data AND a raw script hex, with a `Null`
(non-explicit) confidential value and an asset unequal to the pegout's. -/
def c5_cx_output : OutputInfo where
  value := some (ConfidentialValueInfo.mk ConfidentialType.Null none none)
  asset := some (expl_asset 5)
  nonce := none
  script_pub_key := some (OutputScriptInfo.mk none (some [0x53]) none none)
  pegout_data := some c5_pd
  witness := none

/-- An output whose destination is pegout data, with matching explicit
value 9 and matching asset 7. -/
def c5_ok_output : OutputInfo where
  value := some (expl_value 9)
  asset := some (expl_asset 7)
  nonce := none
  script_pub_key := none
  pegout_data := some c5_pd
  witness := none

/-- An output record supplying neither script info nor pegout data. -/
def c6_cx_output : OutputInfo where
  value := some (expl_value 1)
  asset := some (expl_asset 5)
  nonce := none
  script_pub_key := none
  pegout_data := none
  witness := none

/-- An output whose script info carries only assembly text. -/
def c6_asm_output : OutputInfo where
  value := some (expl_value 1)
  asset := some (expl_asset 5)
  nonce := none
  script_pub_key := some (OutputScriptInfo.mk none none (some "OP_TRUE") none)
  pegout_data := none
  witness := none

/-- A transaction usable as a non-witness UTXO: one output paying 3 to
script `[0x51]`. -/
def c7_nw_tx : Transaction Unit Unit Unit Unit Unit Unit :=
  Transaction.mk 2 0 []
    [TxOut.mk CAsset.Null (CValue.Explicit 3) CNonce.Null [0x51]
      (TxOutWitness.mk none none)]

/-- A PSET input with no UTXO of either kind. -/
def empty_pset_input : PsetInput Unit Unit Unit Unit Unit Unit where
  non_witness_utxo := none
  witness_utxo := none
  partial_sigs := []
  sighash_type := none
  redeem_script := none
  witness_script := none
  bip32_derivation := []
  final_script_sig := none
  final_script_witness := none
  previous_output_index := 0

/-- A PSET input holding only a one-output non-witness UTXO, with the given
`previous_output_index`. -/
def c7_input (vout : Nat) : PsetInput Unit Unit Unit Unit Unit Unit :=
  { empty_pset_input with
    non_witness_utxo := some c7_nw_tx
    previous_output_index := vout }

/-- A PSET whose single input has only a non-witness UTXO with one output,
but `previous_output_index = 5` (out of range). -/
def c7_oob_pset : Pset Unit Unit Unit Unit Unit Unit :=
  Pset.mk [c7_input 5] []

/-- The same PSET with an in-range `previous_output_index`. -/
def c7_ok_pset : Pset Unit Unit Unit Unit Unit Unit :=
  Pset.mk [c7_input 0] []

/-- A merge primitive on `Nat` that rejects exactly the element `1`. -/
def c8_merge (a b : Nat) : Option Nat :=
  if b = 1 then none else some (a + b)

/-- A PSET whose single input already holds a partial signature for the
public key `[2]`. -/
def c9_pset : Pset Unit Unit Unit Unit Unit Unit :=
  Pset.mk [{ empty_pset_input with partial_sigs := [([2], [0xaa])] }] []

/-- Edit arguments adding a partial signature for the already-present
public key `[2]`. -/
def c9_args : EditArgs Unit Unit Unit Unit Unit Unit :=
  { EditArgs.none6 with partial_sigs_add := some [([2], [0xbb])] }

/-- A world in which every string hex-decodes to `[0xaa]`. -/
def c10_hex_world : World :=
  World.mk (fun _ => some [0xaa]) (fun _ => none) (fun _ => none)

/-- A PSET consensus decoder for the trivial instantiation: every byte
string decodes to the one-input PSET. -/
def c10_deser (_ : Bytes) : Option (Pset Unit Unit Unit Unit Unit Unit) :=
  some (Pset.mk [empty_pset_input] [])

/-- A PSET consensus serializer for the trivial instantiation. -/
def c10_ser (_ : Pset Unit Unit Unit Unit Unit Unit) : Bytes := [0x01]

/-!
## Theorems
-/

/-- `Except` bind on a success reduces to the continuation. -/
@[simp] theorem ebind_ok {α β : Type} (a : α) (f : α → Except Err β) :
    (Except.ok a : Except Err α) >>= f = f a := rfl

/-- `Except` bind on an error short-circuits. -/
@[simp] theorem ebind_error {α β : Type} (e : Err) (f : α → Except Err β) :
    (Except.error e : Except Err α) >>= f = Except.error e := rfl

section Theorems

variable {PedC Gen PubK Tweak RangeP SurjP : Type}

/-- C2: decoding the record produced by encoding a confidential value,
asset or nonce yields the original back, over all three variants, provided
the external commitment parsers invert the external serializers (the
secp256k1-zkp contract). -/
theorem c2_confidential_roundtrip (P : Prim PedC Gen PubK Tweak RangeP SurjP)
    (net : Network)
    (hped : ∀ c, P.pedPar (P.pedSer c) = some c)
    (hgen : ∀ g, P.genPar (P.genSer g) = some g)
    (hpk : ∀ k, P.pkPar (P.pkSer k) = some k) :
    (∀ v : CValue PedC,
      create_confidential_value P (value_get_info P v net) = Except.ok v) ∧
    (∀ a : CAsset Gen,
      create_confidential_asset P (asset_get_info P a net) = Except.ok a) ∧
    (∀ n : CNonce PubK,
      create_confidential_nonce P (nonce_get_info P n net) = Except.ok n) := by
  refine ⟨fun v => ?_, fun a => ?_, fun n => ?_⟩
  · cases v <;> simp [create_confidential_value, value_get_info, hped]
  · cases a <;> simp [create_confidential_asset, asset_get_info, hgen]
  · cases n <;> simp [create_confidential_nonce, nonce_get_info, hpk]

/-- C2 witness: the round-trip theorem applied at the trivial primitive
bundle and an explicit value. -/
theorem c2_confidential_roundtrip_witness :
    create_confidential_value UPrim
      (value_get_info UPrim (CValue.Explicit 7) Network.Liquid) =
      Except.ok (CValue.Explicit 7) :=
  (c2_confidential_roundtrip UPrim Network.Liquid (fun _ => rfl) (fun _ => rfl)
    (fun _ => rfl)).1 (CValue.Explicit 7)

/-- C1: a transaction record whose two outputs pay to addresses of two
DIFFERENT networks builds successfully — the mixed-network check cannot
fire, because `create_output` re-initializes `used_network` to `None` for
every output and an output holds at most one address, contradicting the
claimed `MixedNetworkAddresses` failure (and the comment in
`create_output` itself). -/
theorem c1_mixed_networks_accepted :
    create_transaction UPrim c1_info = Except.ok
      (Transaction.mk 2 0 []
        [TxOut.mk (CAsset.Explicit 5) (CValue.Explicit 1) CNonce.Null [0x51]
          (TxOutWitness.mk none none),
        TxOut.mk (CAsset.Explicit 5) (CValue.Explicit 1) CNonce.Null [0x52]
          (TxOutWitness.mk none none)]) := by
  rfl

/-- C3: an input record with no sequence field builds with sequence `0`
(`u32::default()`), not the all-ones disabled-relative-locktime value
`0xffffffff` the spec states (and which the repository's own
`pset.rs` display code uses for an absent sequence). -/
theorem c3_default_sequence_is_zero :
    (create_input UPrim base_input).toOption.map (fun t => t.sequence) =
      some 0 ∧
    (create_input UPrim base_input).toOption.map (fun t => t.sequence) ≠
      some 0xffffffff := by
  exact ⟨rfl, by decide⟩

/-- C4 counterexample: an input with the issuance flag explicitly true and
NO issuance record builds successfully with the default (empty) issuance,
although the claim requires it to fail with `IncompleteIssuance`. -/
theorem c4_flag_without_data_builds :
    create_input UPrim c4_flag_no_data_input = Except.ok
      (TxIn.mk (OutPoint.mk zero32 0) [] 0 false (default_issuance UPrim)
        (TxInWitness.mk none none [] [])) := by
  rfl

end Theorems

section Theorems2

variable {PedC Gen PubK Tweak RangeP SurjP : Type}

/-- C4 (amended): when the resolved issuance flag is true AND an issuance
record is supplied, any absent sub-field makes the build fail with
`IncompleteIssuance` (given the sub-fields that are present parse, and the
input's prevout/script-sig stages pass); the flag-true/no-record case
builds a default issuance instead (see `c4_flag_without_data_builds`). -/
theorem c4_issuance_subfields_required (P : Prim PedC Gen PubK Tweak RangeP SurjP)
    (input : InputInfo) (op : OutPoint) (ai : AssetIssuanceInfo)
    (hflag : input.has_issuance.getD input.asset_issuance.isSome = true)
    (hai : input.asset_issuance = some ai)
    (hprev : outpoint_from_input_info input = Except.ok op)
    (hss : input.script_sig = none)
    (habn : ∀ bs, ai.asset_blinding_nonce = some bs → ∃ t, P.twPar bs = some t)
    (hent : ∀ bs, ai.asset_entropy = some bs → bs.length = 32)
    (hamt : ∀ vi, ai.amount = some vi → ∃ cv, create_confidential_value P vi = Except.ok cv)
    (hmiss : ai.asset_blinding_nonce = none ∨ ai.asset_entropy = none ∨
      ai.amount = none ∨ ai.inflation_keys = none) :
    create_input P input = Except.error Err.IncompleteIssuance := by
  have hIss : create_asset_issuance P ai = Except.error Err.IncompleteIssuance := by
    cases h1 : ai.asset_blinding_nonce with
    | none => simp [create_asset_issuance, h1]
    | some bs1 =>
      obtain ⟨t, ht⟩ := habn bs1 h1
      cases h2 : ai.asset_entropy with
      | none => simp [create_asset_issuance, h1, ht, h2]
      | some bs2 =>
        have hl2 := hent bs2 h2
        cases h3 : ai.amount with
        | none => simp [create_asset_issuance, h1, ht, h2, bytes_32, hl2, h3]
        | some vi3 =>
          obtain ⟨cv3, hcv3⟩ := hamt vi3 h3
          cases h4 : ai.inflation_keys with
          | none => simp [create_asset_issuance, h1, ht, h2, bytes_32, hl2, h3, hcv3, h4]
          | some vi4 =>
            rcases hmiss with hm | hm | hm | hm <;>
              first
                | exact absurd hm (by simp [h1])
                | exact absurd hm (by simp [h2])
                | exact absurd hm (by simp [h3])
                | exact absurd hm (by simp [h4])
  have hflag2 : input.has_issuance.getD true = true := by
    simpa [hai] using hflag
  simp [create_input, hflag2, hai, hprev, hss, hIss]

/-- C4 witness: the amended theorem applied at an input whose issuance
record has all four sub-fields absent (flag inferred from presence). -/
theorem c4_issuance_subfields_required_witness :
    create_input UPrim c4_empty_issuance_input = Except.error Err.IncompleteIssuance :=
  c4_issuance_subfields_required UPrim c4_empty_issuance_input (OutPoint.mk zero32 0)
    (AssetIssuanceInfo.mk none none none none) rfl rfl rfl rfl
    (fun _ h => nomatch h) (fun _ h => nomatch h) (fun _ h => nomatch h)
    (Or.inl rfl)

end Theorems2

section Theorems3

variable {PedC Gen PubK Tweak RangeP SurjP : Type}

/-- C5 counterexample: an output record "carrying pegout data" whose
confidential value is `Null` (not explicit) and whose asset differs from
the pegout asset nevertheless builds — because it also supplies raw script
hex, which wins over the pegout data (the pegout data is only warned about
and none of the claimed checks run). -/
theorem c5_pegout_with_script_unchecked :
    create_output UPrim c5_cx_output = Except.ok
      (TxOut.mk (CAsset.Explicit 5) CValue.Null CNonce.Null [0x53]
        (TxOutWitness.mk none none)) := by
  rfl

/-- C5 (amended): for an output whose destination resolves via pegout data
(no script info supplied): a non-explicit value fails, an explicit value
unequal to the pegout value fails, an asset unequal to the pegout asset
fails, and on full agreement the script is OP_RETURN, push(genesis hash),
push(resolved inner script), then one push per extra blob, in order. -/
theorem c5_pegout_consistency [DecidableEq Gen]
    (P : Prim PedC Gen PubK Tweak RangeP SurjP) (o : OutputInfo)
    (pd : PegoutDataInfo) (vi : ConfidentialValueInfo)
    (ai : ConfidentialAssetInfo) (cv : CValue PedC) (ca : CAsset Gen)
    (hspk : o.script_pub_key = none) (hpd : o.pegout_data = some pd)
    (hv : o.value = some vi)
    (hcv : create_confidential_value P vi = Except.ok cv)
    (ha : o.asset = some ai)
    (hca : create_confidential_asset P ai = Except.ok ca)
    (hn : o.nonce = none) (hw : o.witness = none) :
    ((∀ v, cv ≠ CValue.Explicit v) →
      create_output P o = Except.error Err.NonExplicitPegoutValue) ∧
    (∀ v, cv = CValue.Explicit v → v ≠ pd.value →
      create_output P o = Except.error Err.PegoutValueMismatch) ∧
    (∀ ca2, cv = CValue.Explicit pd.value →
      create_confidential_asset P pd.asset = Except.ok ca2 → ca ≠ ca2 →
      create_output P o = Except.error Err.PegoutAssetMismatch) ∧
    (∀ inner, cv = CValue.Explicit pd.value →
      create_confidential_asset P pd.asset = Except.ok ca →
      create_pegout_script_pubkey pd.script_pub_key = Except.ok inner →
      create_output P o = Except.ok (TxOut.mk ca cv CNonce.Null
        ([0x6a] ++ push_slice pd.genesis_hash ++ push_slice inner ++
          (pd.extra_data.map push_slice).flatten)
        (TxOutWitness.mk none none))) := by
  refine ⟨fun hne => ?_, fun v hev hvne => ?_, fun ca2 hev hca2 hane => ?_,
    fun inner hev hca2 hinner => ?_⟩
  · cases cv with
    | Null => simp [create_output, hspk, hpd, hv, hcv, ha, hca, hn, hw]
    | Explicit v => exact absurd rfl (hne v)
    | Confidential c => simp [create_output, hspk, hpd, hv, hcv, ha, hca, hn, hw]
  · subst hev
    simp [create_output, hspk, hpd, hv, hcv, ha, hca, hn, hw, hvne]
  · subst hev
    simp [create_output, hspk, hpd, hv, hcv, ha, hca, hn, hw, hca2, hane]
  · subst hev
    simp [create_output, hspk, hpd, hv, hcv, ha, hca, hn, hw, hca2,
      create_script_pubkey_from_pegout_data, hinner]

/-- C5 witness: the amended theorem's agreement case at a concrete matching
output (value 9, asset 7, inner script hex `[0x51]`). -/
theorem c5_pegout_consistency_witness :
    create_output UPrim c5_ok_output = Except.ok
      (TxOut.mk (CAsset.Explicit 7) (CValue.Explicit 9) CNonce.Null
        ([0x6a] ++ push_slice c5_pd.genesis_hash ++ push_slice [0x51] ++
          (c5_pd.extra_data.map push_slice).flatten)
        (TxOutWitness.mk none none)) :=
  (c5_pegout_consistency UPrim c5_ok_output c5_pd (expl_value 9) (expl_asset 7)
    (CValue.Explicit 9) (CAsset.Explicit 7) rfl rfl rfl rfl rfl rfl rfl
    rfl).2.2.2 [0x51] rfl rfl rfl

/-- C6 counterexample: an output record supplying NONE of script hex,
assembly, address or pegout data builds successfully with an empty script
(`Script::default()`), although the claim requires it to fail. -/
theorem c6_no_destination_builds :
    create_output UPrim c6_cx_output = Except.ok
      (TxOut.mk (CAsset.Explicit 5) (CValue.Explicit 1) CNonce.Null []
        (TxOutWitness.mk none none)) := by
  rfl

/-- C6 (amended): destination resolution is by fixed priority, not
exclusivity: within a supplied script-info, raw hex wins (even over a
present address or pegout data), assembly fails with `UnsupportedFeature`,
a script-info with none of the three fails with `NoScriptPubkey`; an
output with neither script-info nor pegout data builds with an empty
script. -/
theorem c6_destination_resolution [DecidableEq Gen]
    (P : Prim PedC Gen PubK Tweak RangeP SurjP) (o : OutputInfo)
    (vi : ConfidentialValueInfo) (ai : ConfidentialAssetInfo)
    (cv : CValue PedC) (ca : CAsset Gen)
    (hv : o.value = some vi)
    (hcv : create_confidential_value P vi = Except.ok cv)
    (ha : o.asset = some ai)
    (hca : create_confidential_asset P ai = Except.ok ca)
    (hn : o.nonce = none) (hw : o.witness = none) :
    (∀ spk h, o.script_pub_key = some spk → spk.hex = some h →
      create_output P o = Except.ok
        (TxOut.mk ca cv CNonce.Null h (TxOutWitness.mk none none))) ∧
    (∀ spk s, o.script_pub_key = some spk → spk.hex = none → spk.asm = some s →
      create_output P o = Except.error Err.UnsupportedFeature) ∧
    (∀ spk, o.script_pub_key = some spk → spk.hex = none → spk.asm = none →
      spk.unblinded_address = none →
      create_output P o = Except.error Err.NoScriptPubkey) ∧
    (o.script_pub_key = none → o.pegout_data = none →
      create_output P o = Except.ok
        (TxOut.mk ca cv CNonce.Null [] (TxOutWitness.mk none none))) := by
  refine ⟨fun spk h hspk hhex => ?_, fun spk s hspk hhex hasm => ?_,
    fun spk hspk hhex hasm haddr => ?_, fun hspk hpd => ?_⟩
  · simp [create_output, hspk, hv, hcv, ha, hca, hn, hw,
      create_script_pubkey, hhex]
  · simp [create_output, hspk, hv, hcv, ha, hca, hn, hw,
      create_script_pubkey, hhex, hasm]
  · simp [create_output, hspk, hv, hcv, ha, hca, hn, hw,
      create_script_pubkey, hhex, hasm, haddr]
  · simp [create_output, hspk, hpd, hv, hcv, ha, hca, hn, hw]

/-- C6 witness: the amended theorem's assembly case at a concrete output
whose script-info carries only assembly text. -/
theorem c6_destination_resolution_witness :
    create_output UPrim c6_asm_output = Except.error Err.UnsupportedFeature :=
  (c6_destination_resolution UPrim c6_asm_output (expl_value 1) (expl_asset 5)
    (CValue.Explicit 1) (CAsset.Explicit 5) rfl rfl rfl rfl rfl
    rfl).2.1 (OutputScriptInfo.mk none none (some "OP_TRUE") none) "OP_TRUE"
    rfl rfl rfl

end Theorems3

section Theorems4

variable {PedC Gen PubK Tweak RangeP SurjP : Type}

/-- C7 counterexample: an input whose non-witness UTXO has one output but
whose `previous_output_index` is 5 fails with the index panic, not with
`MissingUtxo` as the claim states. -/
theorem c7_oob_vout_not_missing_utxo :
    get_spk_amt c7_oob_pset 0 = Except.error Err.IndexOutOfBounds ∧
    get_spk_amt c7_oob_pset 0 ≠ Except.error Err.MissingUtxo := by
  refine ⟨rfl, fun h => ?_⟩
  exact Err.noConfusion (Except.error.inj h)

/-- C7 (amended): the spending pair comes from the witness UTXO when
present (even alongside a non-witness UTXO), else from output
`previous_output_index` of the non-witness UTXO; `MissingUtxo` only when
NEITHER UTXO is present; an out-of-range `previous_output_index` fails
with the `Vec` index panic (modelled `IndexOutOfBounds`), not
`MissingUtxo`. -/
theorem c7_utxo_resolution (pset : Pset PedC Gen PubK Tweak RangeP SurjP)
    (i : Nat) (inp : PsetInput PedC Gen PubK Tweak RangeP SurjP)
    (hidx : pset.inputs.get? i = some inp) :
    (∀ w, inp.witness_utxo = some w →
      get_spk_amt pset i = Except.ok (w.script_pubkey, w.value)) ∧
    (inp.witness_utxo = none → inp.non_witness_utxo = none →
      get_spk_amt pset i = Except.error Err.MissingUtxo) ∧
    (∀ nw o, inp.witness_utxo = none → inp.non_witness_utxo = some nw →
      nw.output.get? inp.previous_output_index = some o →
      get_spk_amt pset i = Except.ok (o.script_pubkey, o.value)) ∧
    (∀ nw, inp.witness_utxo = none → inp.non_witness_utxo = some nw →
      nw.output.get? inp.previous_output_index = none →
      get_spk_amt pset i = Except.error Err.IndexOutOfBounds) := by
  have hidx2 : pset.inputs[i]? = some inp := by
    rw [← List.get?_eq_getElem?]
    exact hidx
  refine ⟨fun w hw => ?_, fun hw hnw => ?_, fun nw o hw hnw hget => ?_,
    fun nw hw hnw hget => ?_⟩
  · simp [get_spk_amt, hidx2, hw]
  · simp [get_spk_amt, hidx2, hw, hnw]
  · have hget2 : nw.output[inp.previous_output_index]? = some o := by
      rw [← List.get?_eq_getElem?]
      exact hget
    simp [get_spk_amt, hidx2, hw, hnw, hget2]
  · have hget2 : nw.output[inp.previous_output_index]? = none := by
      rw [← List.get?_eq_getElem?]
      exact hget
    simp [get_spk_amt, hidx2, hw, hnw, hget2]

/-- C7 witness: the amended theorem's in-range non-witness case at a
concrete PSET. -/
theorem c7_utxo_resolution_witness :
    get_spk_amt c7_ok_pset 0 = Except.ok ([0x51], CValue.Explicit 3) :=
  (c7_utxo_resolution c7_ok_pset 0 (c7_input 0) rfl).2.2.1 c7_nw_tx
    (TxOut.mk CAsset.Null (CValue.Explicit 3) CNonce.Null [0x51]
      (TxOutWitness.mk none none)) rfl rfl rfl

/-- C8 counterexample: merging `[P0, P1, P2]` where `P1` is the element the
merge primitive rejects reports `MergeFailed 0`, not index 1 as the claim
states — the loop enumerates from 0 after the base was consumed. -/
theorem c8_first_subsequent_reported_as_zero :
    exec_merge_core c8_merge [0, 1, 2] = Except.error (Err.MergeFailed 0) ∧
    exec_merge_core c8_merge [0, 1, 2] ≠ Except.error (Err.MergeFailed 1) := by
  constructor
  · rfl
  · rw [show exec_merge_core c8_merge [0, 1, 2] =
      Except.error (Err.MergeFailed 0) from rfl]
    simp

/-- Helper: if the first `k` merges succeed and merging element `k` of the
remaining list fails, the fold reports index `i + k` (where `i` is the
running counter). -/
theorem merge_fold_fail_at {α : Type} (m : α → α → Option α) (p : α) :
    ∀ (ps : List α) (k : Nat) (acc acc' : α) (i : Nat),
      merge_upto m acc ps k = some acc' → ps.get? k = some p →
      m acc' p = none →
      merge_fold m acc i ps = Except.error (Err.MergeFailed (i + k)) := by
  intro ps
  induction ps with
  | nil =>
    intro k acc acc' i hpre hget hfail
    cases k <;> simp [List.get?] at hget
  | cons q qs ih =>
    intro k acc acc' i hpre hget hfail
    cases k with
    | zero =>
      have hacc : acc = acc' := by simpa [merge_upto] using hpre
      have hq : q = p := by simpa [List.get?] using hget
      subst hacc
      subst hq
      simp [merge_fold, hfail]
    | succ k2 =>
      cases hm : m acc q with
      | none => simp [merge_upto, hm] at hpre
      | some a2 =>
        have hpre2 : merge_upto m a2 qs k2 = some acc' := by
          simpa [merge_upto, hm] using hpre
        have hget2 : qs.get? k2 = some p := by simpa [List.get?] using hget
        have hrec := ih k2 a2 acc' (i + 1) hpre2 hget2 hfail
        have harith : i + (k2 + 1) = (i + 1) + k2 := by omega
        rw [harith]
        simpa [merge_fold, hm] using hrec

/-- C8 (amended): merging is a left fold from the first element; when the
subsequent element at position `k` (0-based over the elements after the
base, i.e. element `k+1` of the original list) is the first to fail, the
failure is `MergeFailed k` — indices are 0-based over the subsequent
elements, not 1-based — and no merged result is produced. -/
theorem c8_merge_failure_attribution {α : Type} (m : α → α → Option α)
    (base : α) (rest : List α) (k : Nat) (acc' p : α)
    (hpre : merge_upto m base rest k = some acc')
    (hget : rest.get? k = some p) (hfail : m acc' p = none) :
    exec_merge_core m (base :: rest) = Except.error (Err.MergeFailed k) := by
  have h := merge_fold_fail_at m p rest k base acc' 0 hpre hget hfail
  simpa [exec_merge_core] using h

/-- C8 witness: the amended theorem at a list whose element at subsequent
position 1 (original position 2) is the rejected one. -/
theorem c8_merge_failure_attribution_witness :
    exec_merge_core c8_merge [10, 5, 1, 7] = Except.error (Err.MergeFailed 1) :=
  c8_merge_failure_attribution c8_merge 10 [5, 1, 7] 1 15 1 rfl rfl rfl

end Theorems4

section Theorems5

variable {PedC Gen PubK Tweak RangeP SurjP : Type}

/-- C9: an additive partial-sig edit inserting a public key that the
input's partial-signature map already contains fails with `DuplicateKey`,
so no edited PSET is produced (the process aborts before serializing, and
the loaded PSET is discarded — the persisted map is untouched). -/
theorem c9_duplicate_partial_sig_add
    (args : EditArgs PedC Gen PubK Tweak RangeP SurjP)
    (pset : Pset PedC Gen PubK Tweak RangeP SurjP) (idx : Nat)
    (inp : PsetInput PedC Gen PubK Tweak RangeP SurjP)
    (pk sig old : Bytes)
    (hidx : pset.inputs.get? idx = some inp)
    (hrepl : args.partial_sigs = none)
    (hadd : args.partial_sigs_add = some [(pk, sig)])
    (hdup : map_find inp.partial_sigs pk = some old) :
    edit_input args pset idx = Except.error Err.DuplicateKey ∧
    ∀ r, edit_input args pset idx ≠ Except.ok r := by
  have hidx2 : pset.inputs[idx]? = some inp := by
    rw [← List.get?_eq_getElem?]
    exact hidx
  have hmain : edit_input args pset idx = Except.error Err.DuplicateKey := by
    cases hn : args.non_witness_utxo <;> cases hw : args.witness_utxo <;>
      simp [edit_input, hidx2, hn, hw, hrepl, hadd, add_pairs,
        map_insert_checked, hdup]
  refine ⟨hmain, fun r h => ?_⟩
  rw [hmain] at h
  exact Except.noConfusion h

/-- C9 witness: the theorem at a concrete PSET whose input already holds a
signature for public key `[2]`. -/
theorem c9_duplicate_partial_sig_add_witness :
    edit_input c9_args c9_pset 0 = Except.error Err.DuplicateKey :=
  (c9_duplicate_partial_sig_add c9_args c9_pset 0
    ({ empty_pset_input with partial_sigs := [([2], [0xaa])] })
    [2] [0xbb] [0xaa] rfl rfl rfl rfl).1

/-- C10: loading resolves the source in the fixed order hex, base64, file
path — the first success wins, failing all three is an error — and an edit
saved with no explicit destination re-encodes in the loaded form: hex text
for a hex-supplied PSET, base64 text for a base64-supplied one, and a
write back to the original path for a file-supplied one. -/
theorem c10_source_resolution_roundtrip :
    (∀ (w : World) (s : String) (bs : Bytes), w.hexDec s = some bs →
      file_or_raw w s = Except.ok (bs, PsetSource.Hex)) ∧
    (∀ (w : World) (s : String) (bs : Bytes), w.hexDec s = none →
      w.b64Dec s = some bs →
      file_or_raw w s = Except.ok (bs, PsetSource.Base64)) ∧
    (∀ (w : World) (s : String) (bs : Bytes), w.hexDec s = none →
      w.b64Dec s = none → w.readFile s = some bs →
      file_or_raw w s = Except.ok (bs, PsetSource.File)) ∧
    (∀ (w : World) (s : String), w.hexDec s = none → w.b64Dec s = none →
      w.readFile s = none →
      file_or_raw w s = Except.error Err.UnrecognizedPsetSource) ∧
    (∀ (w : World)
      (deser : Bytes → Option (Pset PedC Gen PubK Tweak RangeP SurjP))
      (ser : Pset PedC Gen PubK Tweak RangeP SurjP → Bytes)
      (s : String) (bs : Bytes) (pset pset2 : Pset PedC Gen PubK Tweak RangeP SurjP)
      (idx : Nat) (args : EditArgs PedC Gen PubK Tweak RangeP SurjP),
      w.hexDec s = some bs → deser bs = some pset →
      edit_input args pset idx = Except.ok pset2 →
      exec_edit_core w deser ser s (some idx) none args none false =
        Except.ok (OutAction.printHex (ser pset2))) ∧
    (∀ (w : World)
      (deser : Bytes → Option (Pset PedC Gen PubK Tweak RangeP SurjP))
      (ser : Pset PedC Gen PubK Tweak RangeP SurjP → Bytes)
      (s : String) (bs : Bytes) (pset pset2 : Pset PedC Gen PubK Tweak RangeP SurjP)
      (idx : Nat) (args : EditArgs PedC Gen PubK Tweak RangeP SurjP),
      w.hexDec s = none → w.b64Dec s = some bs → deser bs = some pset →
      edit_input args pset idx = Except.ok pset2 →
      exec_edit_core w deser ser s (some idx) none args none false =
        Except.ok (OutAction.printBase64 (ser pset2))) ∧
    (∀ (w : World)
      (deser : Bytes → Option (Pset PedC Gen PubK Tweak RangeP SurjP))
      (ser : Pset PedC Gen PubK Tweak RangeP SurjP → Bytes)
      (s : String) (bs : Bytes) (pset pset2 : Pset PedC Gen PubK Tweak RangeP SurjP)
      (idx : Nat) (args : EditArgs PedC Gen PubK Tweak RangeP SurjP),
      w.hexDec s = none → w.b64Dec s = none → w.readFile s = some bs →
      deser bs = some pset →
      edit_input args pset idx = Except.ok pset2 →
      exec_edit_core w deser ser s (some idx) none args none false =
        Except.ok (OutAction.writeFile s (ser pset2))) := by
  refine ⟨fun w s bs h1 => ?_, fun w s bs h1 h2 => ?_,
    fun w s bs h1 h2 h3 => ?_, fun w s h1 h2 h3 => ?_,
    fun w deser ser s bs pset pset2 idx args h1 hd he => ?_,
    fun w deser ser s bs pset pset2 idx args h1 h2 hd he => ?_,
    fun w deser ser s bs pset pset2 idx args h1 h2 h3 hd he => ?_⟩
  · simp [file_or_raw, h1]
  · simp [file_or_raw, h1, h2]
  · simp [file_or_raw, h1, h2, h3]
  · simp [file_or_raw, h1, h2, h3]
  · simp [exec_edit_core, file_or_raw, h1, hd, he, save_edited]
  · simp [exec_edit_core, file_or_raw, h1, h2, hd, he, save_edited]
  · simp [exec_edit_core, file_or_raw, h1, h2, h3, hd, he, save_edited]

/-- C10 witness: the hex round-trip clause at a concrete world, codec and
no-op edit of a one-input PSET. -/
theorem c10_source_resolution_roundtrip_witness :
    exec_edit_core c10_hex_world c10_deser c10_ser "ab" (some 0) none
      EditArgs.none6 none false =
      Except.ok (OutAction.printHex [0x01]) :=
  (@c10_source_resolution_roundtrip Unit Unit Unit Unit Unit
    Unit).2.2.2.2.1 c10_hex_world c10_deser c10_ser "ab" [0xaa]
    (Pset.mk [empty_pset_input] []) (Pset.mk [empty_pset_input] []) 0
    EditArgs.none6 rfl rfl rfl

end Theorems5
